import Mathlib

/-
  Verification of the BookKeepWeb client core: the zod-based Book schema layer
  (src/@types/baseModel.ts, book.ts, bookFormValues.ts, bookDto.ts) and the
  bookService transport layer (services/bookService.ts).  The repository ships
  two near-identical revisions of bookService; where they differ we embed the
  richer revision (the one whose error normalization recognizes the
  Message / message / title / detail body shapes) and also model the plain
  revision separately.
-/

namespace BookKeep

/-- A JavaScript object field as seen by zod: the key may be absent
(undefined), explicitly null, or carry a well-typed value. -/
inductive Field (α : Type) where
  | absent : Field α
  | null : Field α
  | val : α → Field α
deriving DecidableEq, Repr

/-- Number of decimal digit characters in a string (the count the ISBN
regex lookahead constrains). -/
def countDigits (s : String) : Nat :=
  s.data.countP Char.isDigit

/-- Every character of the string is a digit or a hyphen
(the regex body [\d-]+ with nonemptiness tracked separately). -/
def allDigitOrHyphen (s : String) : Bool :=
  s.data.all (fun c => c.isDigit || c == '-')

/-- The last character of the string is a digit. -/
def endsWithDigit (s : String) : Bool :=
  match s.data.getLast? with
  | some c => c.isDigit
  | none => false

/-- Semantics of the source regex for ISBN,
regex(/^(?=(?:\D*\d)\x7b10\x7d(?:(?:\D*\d)\x7b3\x7d)?$)[\d-]+$/): the body
[\d-]+ forces a nonempty digit-or-hyphen string, and the anchored lookahead
(\D*\d) repeated exactly 10 or exactly 13 times followed by end-of-input
forces exactly 10 or exactly 13 digits with no trailing non-digit
(every \D is consumed before a digit, so the string must end in a digit). -/
def isbnRegexOk (s : String) : Bool :=
  (countDigits s == 10 || countDigits s == 13)
    && allDigitOrHyphen s && endsWithDigit s

/-- Hexadecimal digit, either case (character class [0-9a-fA-F] of the zod
uuid regular expression). -/
def isHexChar (c : Char) : Bool :=
  c.isDigit || ('a' ≤ c && c ≤ 'f') || ('A' ≤ c && c ≤ 'F')

/-- Split a character list at every occurrence of a separator character
(the groups between hyphens of the uuid regular expression). -/
def splitOnChar (c : Char) : List Char → List (List Char)
  | [] => [[]]
  | x :: xs =>
      if x == c then [] :: splitOnChar c xs
      else
        match splitOnChar c xs with
        | [] => [[x]]
        | g :: gs => (x :: g) :: gs

/-- Semantics of the zod z.string().uuid() check: five hyphen-separated
hexadecimal groups of lengths 8-4-4-4-12. -/
def isUuid (s : String) : Bool :=
  match splitOnChar '-' s.data with
  | [a, b, c, d, e] =>
      a.length == 8 && b.length == 4 && c.length == 4 && d.length == 4
        && e.length == 12
        && (a ++ b ++ c ++ d ++ e).all isHexChar
  | _ => false

/-- Simplified model of the URL parse attempted by z.string().url(): a
nonempty alphabetic scheme, the separator, and a nonempty remainder.  The
claims under verification do not depend on finer URL details; this predicate
is used uniformly for both the code side and the specification side. -/
def isUrl (s : String) : Bool :=
  match s.data.dropWhile Char.isAlpha with
  | ':' :: '/' :: '/' :: rest =>
      !(s.data.takeWhile Char.isAlpha).isEmpty && !rest.isEmpty
  | _ => false

/-- A single zod issue: the offending field and its message. -/
structure Issue where
  field : String
  message : String
deriving DecidableEq, Repr

/-- Run every check of a zod chain on a value, collecting the messages of the
failed checks (zod string/number checks all run; they do not short-circuit). -/
def runChecks {α : Type} (checks : List (α → Option String)) (v : α) :
    List String :=
  checks.filterMap (fun c => c v)

/-- zod minimum-length check with its message. -/
def minLen (n : Nat) (msg : String) : String → Option String :=
  fun s => if s.length < n then some msg else none

/-- zod maximum-length check with its message. -/
def maxLen (n : Nat) (msg : String) : String → Option String :=
  fun s => if n < s.length then some msg else none

/-- A required zod string: undefined is a Required issue, null an
invalid-type issue, and a string value runs the chained checks. -/
def parseReqString (checks : List (String → Option String)) :
    Field String → Except (List String) String
  | .absent => .error ["Required"]
  | .null => .error ["Expected string, received null"]
  | .val s =>
      match runChecks checks s with
      | [] => .ok s
      | m => .error (m)

/-- A required zod number (the claims only involve integral values, matching
z.number().int() where used). -/
def parseReqNum (checks : List (Int → Option String)) :
    Field Int → Except (List String) Int
  | .absent => .error ["Required"]
  | .null => .error ["Expected number, received null"]
  | .val n =>
      match runChecks checks n with
      | [] => .ok n
      | m => .error (m)

/-- A required zod boolean. -/
def parseReqBool : Field Bool → Except (List String) Bool
  | .absent => .error ["Required"]
  | .null => .error ["Expected boolean, received null"]
  | .val b => .ok b

/-- zod .default(d): an undefined input is replaced by the default value,
which is then parsed by the inner schema; null and present values go to the
inner schema unchanged. -/
def withDefault {α β : Type} (inner : Field α → Except (List String) β)
    (d : α) : Field α → Except (List String) β
  | .absent => inner (.val d)
  | f => inner f

/-- zod .optional(): undefined passes through as absent, null is an
invalid-type issue, a value runs the checks. -/
def parseOptString (checks : List (String → Option String)) :
    Field String → Except (List String) (Option String)
  | .absent => .ok none
  | .null => .error ["Expected string, received null"]
  | .val s =>
      match runChecks checks s with
      | [] => .ok (some s)
      | m => .error (m)

/-- zod .optional().nullable() on a string: undefined and null both pass
through unchanged, a value runs the checks. -/
def parseOptNullString (checks : List (String → Option String)) :
    Field String → Except (List String) (Field String)
  | .absent => .ok .absent
  | .null => .ok .null
  | .val s =>
      match runChecks checks s with
      | [] => .ok (.val s)
      | m => .error (m)

/-- zod .optional().nullable() on a number. -/
def parseOptNullNum (checks : List (Int → Option String)) :
    Field Int → Except (List String) (Field Int)
  | .absent => .ok .absent
  | .null => .ok .null
  | .val n =>
      match runChecks checks n with
      | [] => .ok (.val n)
      | m => .error (m)

/-- Checks of baseModelSchema.id: z.number().min(0) with the ID-is-required message. -/
def idChecks : List (Int → Option String) :=
  [fun n => if n < 0 then some "ID is required" else none]

/-- Checks of baseModelSchema.guid: z.string().uuid(). -/
def guidChecks : List (String → Option String) :=
  [fun s => if isUuid s then none else some "Invalid uuid"]

/-- Checks of bookSchema.title. -/
def titleChecks : List (String → Option String) :=
  [minLen 1 "Title is required.",
   maxLen 200 "Title cannot be longer than 200 characters."]

/-- Checks of bookSchema.author. -/
def authorChecks : List (String → Option String) :=
  [minLen 1 "Author is required.",
   maxLen 100 "Author name cannot be longer than 100 characters."]

/-- Checks of bookSchema.isbn: min(1), min(10), max(13), then the regex. -/
def isbnChecks : List (String → Option String) :=
  [minLen 1 "ISBN is required.",
   minLen 10 "ISBN must be between 10 and 13 characters.",
   maxLen 13 "ISBN must be between 10 and 13 characters.",
   fun s => if isbnRegexOk s then none else some "Invalid ISBN format."]

/-- Checks of bookSchema.description. -/
def descriptionChecks : List (String → Option String) :=
  [maxLen 2000 "Description cannot be longer than 2000 characters."]

/-- Checks of bookSchema.publicationYear; the upper bound is
new Date().getFullYear() + 6, so the current calendar year is an explicit
parameter of the embedding. -/
def yearChecks (currentYear : Int) : List (Int → Option String) :=
  [fun n => if n < 1000 then some "Please enter a valid publication year."
            else none,
   fun n => if currentYear + 6 < n
            then some "Please enter a valid publication year." else none]

/-- Checks of bookSchema.genre. -/
def genreChecks : List (String → Option String) :=
  [maxLen 50 "Genre cannot be longer than 50 characters."]

/-- Checks of bookSchema.coverImageUrl. -/
def coverChecks : List (String → Option String) :=
  [fun s => if isUrl s then none
            else some "Please enter a valid URL for the cover image.",
   maxLen 500 "Cover image URL cannot be longer than 500 characters."]

/-- The raw JavaScript object handed to bookSchema.parse, one Field per key
of the schema shape (well-typed values; the claims under verification are
about validation rules, not about type confusion). -/
structure RawBook where
  id : Field Int
  guid : Field String
  createdOn : Field String
  updatedOn : Field String
  isActive : Field Bool
  title : Field String
  author : Field String
  isbn : Field String
  description : Field String
  publicationYear : Field Int
  genre : Field String
  coverImageUrl : Field String
deriving DecidableEq, Repr

/-- The empty JavaScript object as a RawBook: every key absent. -/
def emptyRaw : RawBook :=
  ⟨.absent, .absent, .absent, .absent, .absent, .absent, .absent, .absent,
   .absent, .absent, .absent, .absent⟩

/-- The parsed Book entity (type IBook inferred from bookSchema): base-model
fields with their defaults applied, plus the book fields.  Optional fields
keep zod output shape (absent for omitted .optional() keys; absent, null or
value for .optional().nullable() keys). -/
structure IBook where
  id : Int
  guid : String
  createdOn : Option String
  updatedOn : Option String
  isActive : Bool
  title : String
  author : String
  isbn : String
  description : Field String
  publicationYear : Field Int
  genre : Field String
  coverImageUrl : Field String
deriving DecidableEq, Repr

/-- Issues contributed by one field of the object parse. -/
def fieldIssues {β : Type} (name : String) (r : Except (List String) β) :
    List Issue :=
  match r with
  | .ok _ => []
  | .error msgs => msgs.map (fun m => ⟨name, m⟩)

/-- Strip an Except down to its success value (used only under a proof that
the parse produced no issues, where every component is a success). -/
def exOk {β : Type} (d : β) : Except (List String) β → β
  | .ok v => v
  | .error _ => d

/-- All issues collected by bookSchema.parse over a raw object, in shape
order: the base-model keys first, then the book keys.  genGuid stands for
the value produced by the uuid v4 generator backing the guid default, and
currentYear for new Date().getFullYear() at schema construction. -/
def collectIssues (currentYear : Int) (genGuid : String) (raw : RawBook) :
    List Issue :=
  fieldIssues "id" (withDefault (parseReqNum idChecks) 0 raw.id)
    ++ fieldIssues "guid"
        (withDefault (parseReqString guidChecks) genGuid raw.guid)
    ++ fieldIssues "createdOn" (parseOptString [] raw.createdOn)
    ++ fieldIssues "updatedOn" (parseOptString [] raw.updatedOn)
    ++ fieldIssues "isActive" (withDefault parseReqBool true raw.isActive)
    ++ fieldIssues "title" (parseReqString titleChecks raw.title)
    ++ fieldIssues "author" (parseReqString authorChecks raw.author)
    ++ fieldIssues "isbn" (parseReqString isbnChecks raw.isbn)
    ++ fieldIssues "description"
        (parseOptNullString descriptionChecks raw.description)
    ++ fieldIssues "publicationYear"
        (parseOptNullNum (yearChecks currentYear) raw.publicationYear)
    ++ fieldIssues "genre" (parseOptNullString genreChecks raw.genre)
    ++ fieldIssues "coverImageUrl"
        (parseOptNullString coverChecks raw.coverImageUrl)

/-- bookSchema.parse: collect the issues of every field; succeed with the
parsed object exactly when there is none, otherwise fail with the
accumulated issue list (zod safeParse semantics; .parse throws the list). -/
def bookParse (currentYear : Int) (genGuid : String) (raw : RawBook) :
    Except (List Issue) IBook :=
  if collectIssues currentYear genGuid raw = [] then
    .ok ⟨exOk 0 (withDefault (parseReqNum idChecks) 0 raw.id),
         exOk "" (withDefault (parseReqString guidChecks) genGuid raw.guid),
         exOk none (parseOptString [] raw.createdOn),
         exOk none (parseOptString [] raw.updatedOn),
         exOk true (withDefault parseReqBool true raw.isActive),
         exOk "" (parseReqString titleChecks raw.title),
         exOk "" (parseReqString authorChecks raw.author),
         exOk "" (parseReqString isbnChecks raw.isbn),
         exOk .absent (parseOptNullString descriptionChecks raw.description),
         exOk .absent
           (parseOptNullNum (yearChecks currentYear) raw.publicationYear),
         exOk .absent (parseOptNullString genreChecks raw.genre),
         exOk .absent (parseOptNullString coverChecks raw.coverImageUrl)⟩
  else
    .error (collectIssues currentYear genGuid raw)

/-- bookFormSchema is bookSchema.extend with no changes, so its parse is the
same function. -/
def bookFormParse (currentYear : Int) (genGuid : String) (raw : RawBook) :
    Except (List Issue) IBook :=
  bookParse currentYear genGuid raw

/-- The Book factory of book.ts: bookSchema.parse, with a zod failure
rethrown as an Error whose message embeds the JSON of the issue list.  The
embedding keeps the issue list itself as the failure value. -/
def Book (currentYear : Int) (genGuid : String) (raw : RawBook) :
    Except (List Issue) IBook :=
  bookParse currentYear genGuid raw

/-- validateBookForm of bookFormValues.ts: true exactly when
bookFormSchema.parse does not throw. -/
def validateBookForm (currentYear : Int) (genGuid : String) (raw : RawBook) :
    Bool :=
  match bookFormParse currentYear genGuid raw with
  | .ok _ => true
  | .error _ => false

/-- The parsed DTO (type IBookDto inferred from bookDtoSchema):
bookSchema minus the omitted server-owned keys id, createdOn, updatedOn,
isActive. -/
structure IBookDto where
  guid : String
  title : String
  author : String
  isbn : String
  description : Field String
  publicationYear : Field Int
  genre : Field String
  coverImageUrl : Field String
deriving DecidableEq, Repr

/-- All issues collected by bookDtoSchema.parse: the omitted keys are gone
from the shape, so their input values are ignored entirely (zod strips
unknown keys); remaining shape order is guid, then the book keys. -/
def collectDtoIssues (currentYear : Int) (genGuid : String) (raw : RawBook) :
    List Issue :=
  fieldIssues "guid"
      (withDefault (parseReqString guidChecks) genGuid raw.guid)
    ++ fieldIssues "title" (parseReqString titleChecks raw.title)
    ++ fieldIssues "author" (parseReqString authorChecks raw.author)
    ++ fieldIssues "isbn" (parseReqString isbnChecks raw.isbn)
    ++ fieldIssues "description"
        (parseOptNullString descriptionChecks raw.description)
    ++ fieldIssues "publicationYear"
        (parseOptNullNum (yearChecks currentYear) raw.publicationYear)
    ++ fieldIssues "genre" (parseOptNullString genreChecks raw.genre)
    ++ fieldIssues "coverImageUrl"
        (parseOptNullString coverChecks raw.coverImageUrl)

/-- bookDtoSchema.parse. -/
def bookDtoParse (currentYear : Int) (genGuid : String) (raw : RawBook) :
    Except (List Issue) IBookDto :=
  if collectDtoIssues currentYear genGuid raw = [] then
    .ok ⟨exOk "" (withDefault (parseReqString guidChecks) genGuid raw.guid),
         exOk "" (parseReqString titleChecks raw.title),
         exOk "" (parseReqString authorChecks raw.author),
         exOk "" (parseReqString isbnChecks raw.isbn),
         exOk .absent (parseOptNullString descriptionChecks raw.description),
         exOk .absent
           (parseOptNullNum (yearChecks currentYear) raw.publicationYear),
         exOk .absent (parseOptNullString genreChecks raw.genre),
         exOk .absent (parseOptNullString coverChecks raw.coverImageUrl)⟩
  else
    .error (collectDtoIssues currentYear genGuid raw)

/-- Result of the BookFormValues factory: either the parsed values or the
silent empty-object fallback of the catch branch. -/
inductive FormValuesResult where
  | parsed : IBook → FormValuesResult
  | emptyObj : FormValuesResult
deriving DecidableEq, Repr

/-- An Option-shaped value as a spread field: an omitted key stays absent. -/
def optField {α : Type} : Option α → Field α
  | none => .absent
  | some v => .val v

/-- The JavaScript spread of a parsed Book back into a raw object,
as in bookFormSchema.parse with the spread of book: keys the parse output
carries become present values, keys it omitted stay absent. -/
def toRaw (b : IBook) : RawBook :=
  ⟨.val b.id, .val b.guid, optField b.createdOn, optField b.updatedOn,
   .val b.isActive, .val b.title, .val b.author, .val b.isbn,
   b.description, b.publicationYear, b.genre, b.coverImageUrl⟩

/-- The BookFormValues factory of bookFormValues.ts: with no argument it
parses the empty object, with a book it parses the spread of the book; a
zod failure is caught and the empty object is returned cast to
IBookFormValues. -/
def BookFormValues (currentYear : Int) (genGuid : String) :
    Option IBook → FormValuesResult
  | none =>
      match bookFormParse currentYear genGuid emptyRaw with
      | .ok b => .parsed b
      | .error _ => .emptyObj
  | some b =>
      match bookFormParse currentYear genGuid (toRaw b) with
      | .ok r => .parsed r
      | .error _ => .emptyObj

/-- Result of the BookDto factory: either the parsed DTO or the silent
empty-object fallback of the catch branch. -/
inductive DtoResult where
  | dto : IBookDto → DtoResult
  | emptyObj : DtoResult
deriving DecidableEq, Repr

/-- The BookDto factory of bookDto.ts: with no argument it parses the empty
object (which fails on the required fields), with an input it parses it
against bookDtoSchema; a zod failure is caught and the empty object is
returned cast to IBookDto.  The input is modelled as a raw object so the
factory covers valid, invalid and absent inputs alike. -/
def BookDto (currentYear : Int) (genGuid : String) :
    Option RawBook → DtoResult
  | none =>
      match bookDtoParse currentYear genGuid emptyRaw with
      | .ok d => .dto d
      | .error _ => .emptyObj
  | some raw =>
      match bookDtoParse currentYear genGuid raw with
      | .ok d => .dto d
      | .error _ => .emptyObj

/-- The keys present on a field of the serialized object: JSON serialization
drops a key whose value is undefined and keeps a null one. -/
def fieldKey {α : Type} (name : String) : Field α → List String
  | .absent => []
  | .null => [name]
  | .val _ => [name]

/-- The keys of the object a DtoResult serializes to: the empty-object
fallback has none; a parsed DTO has the four required keys plus whichever
optional keys its parse output carries. -/
def dtoKeys : DtoResult → List String
  | .emptyObj => []
  | .dto d =>
      ["guid", "title", "author", "isbn"]
        ++ fieldKey "description" d.description
        ++ fieldKey "publicationYear" d.publicationYear
        ++ fieldKey "genre" d.genre
        ++ fieldKey "coverImageUrl" d.coverImageUrl

/-- The server-owned keys bookDtoSchema omits. -/
def serverOwnedKeys : List String :=
  ["id", "createdOn", "updatedOn", "isActive"]

/-
  Transport layer (services/bookService.ts).
-/

/-- The JSON properties the error-normalization code inspects on a parsed
error body.  Message (capitalized), message, title and detail are optional
string properties; errors is an optional field-to-messages map, where a
present-but-empty map models the JSON body errors set to the empty object
(a truthy value in JavaScript). -/
structure ErrJson where
  bigMessage : Option String
  message : Option String
  title : Option String
  detail : Option String
  errors : Option (List (String × List String))
deriving DecidableEq, Repr

/-- The body of an HTTP response as the client reads it: either it parses as
JSON (with the inspected properties), or JSON parsing fails and the raw text
is available. -/
inductive RespBody where
  | json : ErrJson → RespBody
  | text : String → RespBody
deriving DecidableEq, Repr

/-- A fetch Response, reduced to what bookService reads: status, statusText
and the body. -/
structure SimpleResponse where
  status : Nat
  statusText : String
  body : RespBody
deriving DecidableEq, Repr

/-- Response.ok: status in the inclusive range 200 to 299. -/
def respOk (status : Nat) : Bool :=
  200 ≤ status && status ≤ 299

/-- JavaScript truthiness of an optional string property: present and
nonempty. -/
def strTruthy : Option String → Bool
  | none => false
  | some s => s ≠ ""

/-- The errors thrown by the service layer: a plain Error (guard clauses,
JSON parse failures) or an ApiError with message, statusCode and the
optional field-errors map. -/
inductive JsError where
  | plainErr : String → JsError
  | apiErr : String → Nat → Option (List (String × List String)) → JsError
deriving DecidableEq, Repr

/-- Successful outcome of handleApiResponse: undefined for a 204, else the
parsed JSON payload. -/
inductive HandleOk where
  | noContent : HandleOk
  | payload : ErrJson → HandleOk
deriving DecidableEq, Repr

/-- The default message built first by handleApiResponse:
the template with status and statusText (statusText or the empty string). -/
def defaultMsg (status : Nat) (statusText : String) : String :=
  "HTTP error! status: " ++ toString status ++ " " ++ statusText

/-- The truncated excerpt embedded when the error body is not JSON:
substring(0, 200) plus an ellipsis when longer. -/
def excerpt (t : String) : String :=
  if 200 < t.length then t.take 200 ++ "..." else t

/-- The normalized message of the non-Message branch of the richer
handleApiResponse: the first truthy of message and title, else the default
template; then, when the result still equals the default template and detail
is truthy, detail replaces it. -/
def normMsg (status : Nat) (statusText : String) (j : ErrJson) : String :=
  if (if strTruthy j.message then j.message.getD ""
      else if strTruthy j.title then j.title.getD ""
      else defaultMsg status statusText) == defaultMsg status statusText
      && strTruthy j.detail then
    j.detail.getD ""
  else
    if strTruthy j.message then j.message.getD ""
    else if strTruthy j.title then j.title.getD ""
    else defaultMsg status statusText

/-- handleApiResponse of the richer bookService revision: on failure, parse
the body as JSON and normalize the known shapes — a truthy Message property
wins outright; otherwise the first truthy of message and title, falling back
to the default template; if the message is still the default and detail is
truthy, detail replaces it; errors passes through (any present map,
including the empty one, is truthy).  If the body is not JSON, the message
embeds a truncated excerpt of the raw text.  On success, 204 yields
undefined and any other status parses the body as JSON. -/
def handleApiResponse (resp : SimpleResponse) : Except JsError HandleOk :=
  if respOk resp.status then
    if resp.status == 204 then .ok .noContent
    else
      match resp.body with
      | .json j => .ok (.payload j)
      | .text _ => .error (.plainErr "Unexpected token in JSON")
  else
    match resp.body with
    | .json j =>
        if strTruthy j.bigMessage then
          .error (.apiErr (j.bigMessage.getD "") resp.status none)
        else
          .error (.apiErr (normMsg resp.status resp.statusText j)
                    resp.status j.errors)
    | .text t =>
        .error (.apiErr
          ("HTTP error " ++ toString resp.status ++ ": " ++ excerpt t)
          resp.status none)

/-- handleApiResponse of the plain bookService revision: the failure branch
reads the message and errors properties directly, with a status-only default
message when the body is not JSON; an absent message property yields an
Error whose message is the empty string. -/
def handleApiResponseV2 (resp : SimpleResponse) : Except JsError HandleOk :=
  if respOk resp.status then
    if resp.status == 204 then .ok .noContent
    else
      match resp.body with
      | .json j => .ok (.payload j)
      | .text _ => .error (.plainErr "Unexpected token in JSON")
  else
    match resp.body with
    | .json j => .error (.apiErr (j.message.getD "") resp.status j.errors)
    | .text _ =>
        .error (.apiErr ("HTTP error! status: " ++ toString resp.status)
          resp.status none)

/-- A server: a function from request path to response. -/
def Server : Type := String → SimpleResponse

/-- The result of a service call: the request paths issued and the
settlement of the returned promise. -/
structure FetchResult (α : Type) where
  requests : List String
  outcome : Except JsError α
deriving Repr

/-- The path requested for a single book, relative to the configured host. -/
def bookPath (id : String) : String :=
  "/api/books/" ++ id

/-- fetchBookById of bookService.ts: unconditionally issue the GET for the
id and normalize the response — there is no guard clause in this function. -/
def fetchBookById (server : Server) (id : String) : FetchResult HandleOk :=
  ⟨[bookPath id], handleApiResponse (server (bookPath id))⟩

/-- The query function of the BookInfo detail page: a falsy id (undefined or
the empty string) rejects with a plain Error before fetchBookById is ever
called; otherwise it delegates to fetchBookById. -/
def bookInfoQueryFn (server : Server) (id : Option String) :
    FetchResult HandleOk :=
  match id with
  | none => ⟨[], .error (.plainErr "Book ID is missing")⟩
  | some s =>
      if s == "" then ⟨[], .error (.plainErr "Book ID is missing")⟩
      else fetchBookById server s

/-- Successful outcome of deleteBook: the object with the given id. -/
structure DeleteOk where
  id : String
deriving DecidableEq, Repr

/-- deleteBook of bookService.ts: issue the DELETE; a 204 resolves with the
id; otherwise a non-ok status parses the body for message and errors (with a
status-only default when the body is not JSON) and throws an ApiError with
that status; any remaining ok status throws an ApiError saying the book
could not be deleted. -/
def deleteBook (server : Server) (id : String) : FetchResult DeleteOk :=
  ⟨[bookPath id],
    if (server (bookPath id)).status == 204 then
      .ok ⟨id⟩
    else if respOk (server (bookPath id)).status then
      .error (.apiErr "Book could not be deleted"
        (server (bookPath id)).status none)
    else
      match (server (bookPath id)).body with
      | .json j =>
          .error (.apiErr (j.message.getD "") (server (bookPath id)).status
            j.errors)
      | .text _ =>
          .error (.apiErr
            ("HTTP error! status: " ++ toString (server (bookPath id)).status)
            (server (bookPath id)).status none)⟩

/-- A sample valid UUID, standing for a value of the uuid v4 generator. -/
def uuidSample : String := "123e4567-e89b-12d3-a456-426614174000"

/-- A second sample valid UUID. -/
def uuidSample2 : String := "00112233-4455-6677-8899-aabbccddeeff"

/-- A minimal valid raw book: required fields only. -/
def rawSample : RawBook :=
  ⟨.absent, .absent, .absent, .absent, .absent, .val "T", .val "A",
   .val "1234567890", .absent, .absent, .absent, .absent⟩

/-- The parsed book produced from rawSample with generated guid uuidSample:
defaults applied to id, guid and isActive. -/
def bookSample : IBook :=
  ⟨0, "123e4567-e89b-12d3-a456-426614174000", none, none, true, "T", "A",
   "1234567890", .absent, .absent, .absent, .absent⟩

/-- A raw book with a five-digit ISBN. -/
def rawIsbn5 : RawBook :=
  ⟨.absent, .absent, .absent, .absent, .absent, .val "T", .val "A",
   .val "12345", .absent, .absent, .absent, .absent⟩

/-- A raw book with publication year 2032, valid only while the current
year is at least 2026. -/
def rawYear2032 : RawBook :=
  ⟨.absent, .absent, .absent, .absent, .absent, .val "T", .val "A",
   .val "1234567890", .absent, .val 2032, .absent, .absent⟩

/-- A raw book with publication year 999. -/
def rawYear999 : RawBook :=
  ⟨.absent, .absent, .absent, .absent, .absent, .val "T", .val "A",
   .val "1234567890", .absent, .val 999, .absent, .absent⟩

/-- A raw book with a hyphenated thirteen-digit ISBN. -/
def rawIsbn13Hyphen : RawBook :=
  ⟨.absent, .absent, .absent, .absent, .absent, .val "T", .val "A",
   .val "978-0-306-40615-7", .absent, .absent, .absent, .absent⟩

/-- A fully populated valid raw book. -/
def rawFull : RawBook :=
  ⟨.val 7, .val "00112233-4455-6677-8899-aabbccddeeff",
   .val "2020-01-01T00:00:00Z", .absent, .val false, .val "Dune",
   .val "Frank Herbert", .val "9780441013593", .val "A novel",
   .val 2000, .val "Science Fiction", .val "https://example.com/a.png"⟩

/-- A server answering every path with 404 and the title-shaped error body
whose errors property is the empty object. -/
def notFoundServer : Server :=
  fun _ => ⟨404, "", .json ⟨none, none, some "Not Found", none, some []⟩⟩

/-- A server answering every path with 404 and a body that is not JSON. -/
def rawTextServer : Server :=
  fun _ => ⟨404, "", .text "no such route"⟩

/-- A server answering every path with 204 No Content. -/
def delServer204 : Server :=
  fun _ => ⟨204, "No Content", .text ""⟩

/-- A server answering every path with 500 and a message-shaped JSON body. -/
def delServer500 : Server :=
  fun _ => ⟨500, "", .json ⟨none, some "boom", none, none, none⟩⟩

/-- Modelled from the spec: the field constraints of the data-model section —
title 1 to 200 characters, author 1 to 100, ISBN of 10 to 13 characters made
of digits and hyphens and accepted by the validation pattern, optional
description up to 2000 characters, optional publication year between 1000
and the current year plus 6, optional genre up to 50 characters, optional
cover image URL that is a valid URL of at most 500 characters, optional
non-negative id, optional UUID guid, optional timestamp strings, optional
active flag. -/
structure SpecValidBookInput (currentYear : Int) (raw : RawBook) : Prop where
  title_ok : ∃ t, raw.title = .val t ∧ 1 ≤ t.length ∧ t.length ≤ 200
  author_ok : ∃ a, raw.author = .val a ∧ 1 ≤ a.length ∧ a.length ≤ 100
  isbn_ok : ∃ s, raw.isbn = .val s ∧ 10 ≤ s.length ∧ s.length ≤ 13
      ∧ allDigitOrHyphen s = true ∧ isbnRegexOk s = true
  id_ok : raw.id = .absent ∨ ∃ n, raw.id = .val n ∧ 0 ≤ n
  guid_ok : raw.guid = .absent ∨ ∃ u, raw.guid = .val u ∧ isUuid u = true
  createdOn_ok : raw.createdOn = .absent ∨ ∃ s, raw.createdOn = .val s
  updatedOn_ok : raw.updatedOn = .absent ∨ ∃ s, raw.updatedOn = .val s
  isActive_ok : raw.isActive = .absent ∨ ∃ x, raw.isActive = .val x
  description_ok : ∀ s, raw.description = .val s → s.length ≤ 2000
  year_ok : ∀ n, raw.publicationYear = .val n
      → 1000 ≤ n ∧ n ≤ currentYear + 6
  genre_ok : ∀ s, raw.genre = .val s → s.length ≤ 50
  cover_ok : ∀ s, raw.coverImageUrl = .val s
      → isUrl s = true ∧ s.length ≤ 500

/-
  Parser lemmas.
-/

theorem parseReqString_ok_inv {cs : List (String → Option String)}
    {f : Field String} {v : String} (h : parseReqString cs f = .ok v) :
    f = .val v ∧ runChecks cs v = [] := by
  cases f with
  | absent => simp [parseReqString] at h
  | null => simp [parseReqString] at h
  | val s =>
      simp only [parseReqString] at h
      cases hr : runChecks cs s with
      | nil => rw [hr] at h; simp at h; subst h; exact ⟨rfl, hr⟩
      | cons a t => rw [hr] at h; simp at h

theorem parseReqString_ok_of (cs : List (String → Option String))
    (v : String) (h : runChecks cs v = []) :
    parseReqString cs (.val v) = .ok v := by
  simp [parseReqString, h]

theorem parseReqNum_ok_inv {cs : List (Int → Option String)}
    {f : Field Int} {v : Int} (h : parseReqNum cs f = .ok v) :
    f = .val v ∧ runChecks cs v = [] := by
  cases f with
  | absent => simp [parseReqNum] at h
  | null => simp [parseReqNum] at h
  | val n =>
      simp only [parseReqNum] at h
      cases hr : runChecks cs n with
      | nil => rw [hr] at h; simp at h; subst h; exact ⟨rfl, hr⟩
      | cons a t => rw [hr] at h; simp at h

theorem parseReqNum_ok_of (cs : List (Int → Option String))
    (v : Int) (h : runChecks cs v = []) :
    parseReqNum cs (.val v) = .ok v := by
  simp [parseReqNum, h]

theorem parseReqBool_ok_inv {f : Field Bool} {v : Bool}
    (h : parseReqBool f = .ok v) : f = .val v := by
  cases f with
  | absent => simp [parseReqBool] at h
  | null => simp [parseReqBool] at h
  | val b => simp [parseReqBool] at h; simp [h]

theorem withDefault_reqNum_ok_inv {cs : List (Int → Option String)}
    {d : Int} {f : Field Int} {v : Int}
    (h : withDefault (parseReqNum cs) d f = .ok v) :
    runChecks cs v = [] ∧ (f = .absent → v = d) ∧ ∀ n, f = .val n → v = n := by
  cases f with
  | absent =>
      have h2 := parseReqNum_ok_inv (f := .val d) (by simpa [withDefault] using h)
      refine ⟨h2.2, fun _ => ?_, fun n hn => by simp at hn⟩
      have := h2.1
      simpa [Field.val.injEq] using this.symm
  | null => simp [withDefault, parseReqNum] at h
  | val n =>
      have h2 := parseReqNum_ok_inv (f := .val n) (by simpa [withDefault] using h)
      refine ⟨h2.2, fun hc => by simp at hc, fun m hm => ?_⟩
      have h3 : v = n := by simpa [Field.val.injEq] using h2.1.symm
      simp only [Field.val.injEq] at hm
      omega

theorem withDefault_reqString_ok_inv {cs : List (String → Option String)}
    {d : String} {f : Field String} {v : String}
    (h : withDefault (parseReqString cs) d f = .ok v) :
    runChecks cs v = [] ∧ (f = .absent → v = d)
      ∧ ∀ s, f = .val s → v = s := by
  cases f with
  | absent =>
      have h2 := parseReqString_ok_inv (f := .val d)
        (by simpa [withDefault] using h)
      refine ⟨h2.2, fun _ => ?_, fun s hs => by simp at hs⟩
      simpa [Field.val.injEq] using h2.1.symm
  | null => simp [withDefault, parseReqString] at h
  | val s =>
      have h2 := parseReqString_ok_inv (f := .val s)
        (by simpa [withDefault] using h)
      refine ⟨h2.2, fun hc => by simp at hc, fun t ht => ?_⟩
      have h3 : v = s := by simpa [Field.val.injEq] using h2.1.symm
      simp only [Field.val.injEq] at ht
      rw [← ht, h3]

theorem withDefault_reqBool_ok_inv {d : Bool} {f : Field Bool} {v : Bool}
    (h : withDefault parseReqBool d f = .ok v) :
    (f = .absent → v = d) ∧ ∀ b, f = .val b → v = b := by
  cases f with
  | absent =>
      have h2 := parseReqBool_ok_inv (f := .val d)
        (by simpa [withDefault] using h)
      refine ⟨fun _ => ?_, fun b hb => by simp at hb⟩
      simpa [Field.val.injEq] using h2.symm
  | null => simp [withDefault, parseReqBool] at h
  | val b =>
      have h2 := parseReqBool_ok_inv (f := .val b)
        (by simpa [withDefault] using h)
      refine ⟨fun hc => by simp at hc, fun c hc => ?_⟩
      have h3 : v = b := by simpa [Field.val.injEq] using h2.symm
      simp only [Field.val.injEq] at hc
      rw [← hc, h3]

theorem parseOptString_nil_ok_inv {f : Field String} {v : Option String}
    (h : parseOptString [] f = .ok v) :
    (f = .absent → v = none) ∧ (∀ s, f = .val s → v = some s)
      ∧ parseOptString [] (optField v) = .ok v := by
  cases f with
  | absent =>
      simp [parseOptString] at h
      subst h
      exact ⟨fun _ => rfl, fun s hs => by simp at hs,
        by simp [parseOptString, optField]⟩
  | null => simp [parseOptString] at h
  | val s =>
      simp [parseOptString, runChecks] at h
      subst h
      exact ⟨fun hc => by simp at hc,
        fun t ht => by simp only [Field.val.injEq] at ht; rw [ht],
        by simp [parseOptString, optField, runChecks]⟩

theorem parseOptNullString_ok_inv {cs : List (String → Option String)}
    {f : Field String} {v : Field String}
    (h : parseOptNullString cs f = .ok v) :
    v = f ∧ parseOptNullString cs v = .ok v := by
  cases f with
  | absent => simp [parseOptNullString] at h; subst h; simp [parseOptNullString]
  | null => simp [parseOptNullString] at h; subst h; simp [parseOptNullString]
  | val s =>
      simp only [parseOptNullString] at h
      cases hr : runChecks cs s with
      | nil =>
          rw [hr] at h; simp at h; subst h
          exact ⟨rfl, by simp [parseOptNullString, hr]⟩
      | cons a t => rw [hr] at h; simp at h

theorem parseOptNullNum_ok_inv {cs : List (Int → Option String)}
    {f : Field Int} {v : Field Int}
    (h : parseOptNullNum cs f = .ok v) :
    v = f ∧ parseOptNullNum cs v = .ok v := by
  cases f with
  | absent => simp [parseOptNullNum] at h; subst h; simp [parseOptNullNum]
  | null => simp [parseOptNullNum] at h; subst h; simp [parseOptNullNum]
  | val n =>
      simp only [parseOptNullNum] at h
      cases hr : runChecks cs n with
      | nil =>
          rw [hr] at h; simp at h; subst h
          exact ⟨rfl, by simp [parseOptNullNum, hr]⟩
      | cons a t => rw [hr] at h; simp at h

theorem fieldIssues_ok {β : Type} {name : String}
    {r : Except (List String) β} {v : β} (h : r = .ok v) :
    fieldIssues name r = [] := by
  rw [h]; rfl

theorem ok_of_fi_reqString {name : String}
    {cs : List (String → Option String)} {f : Field String}
    (h : fieldIssues name (parseReqString cs f) = []) :
    ∃ v, parseReqString cs f = .ok v := by
  cases f with
  | absent => simp [parseReqString, fieldIssues] at h
  | null => simp [parseReqString, fieldIssues] at h
  | val s =>
      cases hr : runChecks cs s with
      | nil => exact ⟨s, by simp [parseReqString, hr]⟩
      | cons a t => simp [parseReqString, hr, fieldIssues] at h

theorem ok_of_fi_reqNum {name : String} {cs : List (Int → Option String)}
    {f : Field Int} (h : fieldIssues name (parseReqNum cs f) = []) :
    ∃ v, parseReqNum cs f = .ok v := by
  cases f with
  | absent => simp [parseReqNum, fieldIssues] at h
  | null => simp [parseReqNum, fieldIssues] at h
  | val n =>
      cases hr : runChecks cs n with
      | nil => exact ⟨n, by simp [parseReqNum, hr]⟩
      | cons a t => simp [parseReqNum, hr, fieldIssues] at h

theorem ok_of_fi_reqBool {name : String} {f : Field Bool}
    (h : fieldIssues name (parseReqBool f) = []) :
    ∃ v, parseReqBool f = .ok v := by
  cases f with
  | absent => simp [parseReqBool, fieldIssues] at h
  | null => simp [parseReqBool, fieldIssues] at h
  | val b => exact ⟨b, rfl⟩

theorem ok_of_fi_wd_reqNum {name : String} {cs : List (Int → Option String)}
    {d : Int} {f : Field Int}
    (h : fieldIssues name (withDefault (parseReqNum cs) d f) = []) :
    ∃ v, withDefault (parseReqNum cs) d f = .ok v := by
  cases f with
  | absent =>
      have h2 : fieldIssues name (parseReqNum cs (.val d)) = [] := by
        simpa [withDefault] using h
      obtain ⟨v, hv⟩ := ok_of_fi_reqNum h2
      exact ⟨v, by simpa [withDefault] using hv⟩
  | null =>
      have h2 : fieldIssues name (parseReqNum cs (.null)) = [] := by
        simpa [withDefault] using h
      obtain ⟨v, hv⟩ := ok_of_fi_reqNum h2
      exact ⟨v, by simpa [withDefault] using hv⟩
  | val n =>
      have h2 : fieldIssues name (parseReqNum cs (.val n)) = [] := by
        simpa [withDefault] using h
      obtain ⟨v, hv⟩ := ok_of_fi_reqNum h2
      exact ⟨v, by simpa [withDefault] using hv⟩

theorem ok_of_fi_wd_reqString {name : String}
    {cs : List (String → Option String)} {d : String} {f : Field String}
    (h : fieldIssues name (withDefault (parseReqString cs) d f) = []) :
    ∃ v, withDefault (parseReqString cs) d f = .ok v := by
  cases f with
  | absent =>
      have h2 : fieldIssues name (parseReqString cs (.val d)) = [] := by
        simpa [withDefault] using h
      obtain ⟨v, hv⟩ := ok_of_fi_reqString h2
      exact ⟨v, by simpa [withDefault] using hv⟩
  | null =>
      have h2 : fieldIssues name (parseReqString cs (.null)) = [] := by
        simpa [withDefault] using h
      obtain ⟨v, hv⟩ := ok_of_fi_reqString h2
      exact ⟨v, by simpa [withDefault] using hv⟩
  | val s =>
      have h2 : fieldIssues name (parseReqString cs (.val s)) = [] := by
        simpa [withDefault] using h
      obtain ⟨v, hv⟩ := ok_of_fi_reqString h2
      exact ⟨v, by simpa [withDefault] using hv⟩

theorem ok_of_fi_wd_reqBool {name : String} {d : Bool} {f : Field Bool}
    (h : fieldIssues name (withDefault parseReqBool d f) = []) :
    ∃ v, withDefault parseReqBool d f = .ok v := by
  cases f with
  | absent => exact ⟨d, by simp [withDefault, parseReqBool]⟩
  | null => simp [withDefault, parseReqBool, fieldIssues] at h
  | val b => exact ⟨b, by simp [withDefault, parseReqBool]⟩

theorem ok_of_fi_optString {name : String}
    {cs : List (String → Option String)} {f : Field String}
    (h : fieldIssues name (parseOptString cs f) = []) :
    ∃ v, parseOptString cs f = .ok v := by
  cases f with
  | absent => exact ⟨none, rfl⟩
  | null => simp [parseOptString, fieldIssues] at h
  | val s =>
      cases hr : runChecks cs s with
      | nil => exact ⟨some s, by simp [parseOptString, hr]⟩
      | cons a t => simp [parseOptString, hr, fieldIssues] at h

theorem ok_of_fi_optNullString {name : String}
    {cs : List (String → Option String)} {f : Field String}
    (h : fieldIssues name (parseOptNullString cs f) = []) :
    ∃ v, parseOptNullString cs f = .ok v := by
  cases f with
  | absent => exact ⟨.absent, rfl⟩
  | null => exact ⟨.null, rfl⟩
  | val s =>
      cases hr : runChecks cs s with
      | nil => exact ⟨.val s, by simp [parseOptNullString, hr]⟩
      | cons a t => simp [parseOptNullString, hr, fieldIssues] at h

theorem ok_of_fi_optNullNum {name : String}
    {cs : List (Int → Option String)} {f : Field Int}
    (h : fieldIssues name (parseOptNullNum cs f) = []) :
    ∃ v, parseOptNullNum cs f = .ok v := by
  cases f with
  | absent => exact ⟨.absent, rfl⟩
  | null => exact ⟨.null, rfl⟩
  | val n =>
      cases hr : runChecks cs n with
      | nil => exact ⟨.val n, by simp [parseOptNullNum, hr]⟩
      | cons a t => simp [parseOptNullNum, hr, fieldIssues] at h

theorem bookParse_error_inv {cy : Int} {g : String} {raw : RawBook}
    {i : List Issue} (h : bookParse cy g raw = .error i) :
    i = collectIssues cy g raw ∧ i ≠ [] := by
  unfold bookParse at h
  by_cases hc : collectIssues cy g raw = []
  · rw [if_pos hc] at h; exact absurd h (by simp)
  · rw [if_neg hc] at h
    simp only [Except.error.injEq] at h
    exact ⟨h.symm, by rw [h] at hc; exact hc⟩

theorem bookParse_error_of_mem {cy : Int} {g : String} {raw : RawBook}
    {x : Issue} (hx : x ∈ collectIssues cy g raw) :
    ∃ i, bookParse cy g raw = .error i ∧ x ∈ i := by
  have hne : collectIssues cy g raw ≠ [] := List.ne_nil_of_mem hx
  unfold bookParse
  rw [if_neg hne]
  exact ⟨_, rfl, hx⟩

theorem validateBookForm_false_of_error {cy : Int} {g : String}
    {raw : RawBook} {i : List Issue}
    (h : bookFormParse cy g raw = .error i) :
    validateBookForm cy g raw = false := by
  unfold validateBookForm
  rw [h]

theorem collect_nil_components {cy : Int} {g : String} {raw : RawBook}
    (h : collectIssues cy g raw = []) :
    fieldIssues "id" (withDefault (parseReqNum idChecks) 0 raw.id) = []
  ∧ fieldIssues "guid"
      (withDefault (parseReqString guidChecks) g raw.guid) = []
  ∧ fieldIssues "createdOn" (parseOptString [] raw.createdOn) = []
  ∧ fieldIssues "updatedOn" (parseOptString [] raw.updatedOn) = []
  ∧ fieldIssues "isActive" (withDefault parseReqBool true raw.isActive) = []
  ∧ fieldIssues "title" (parseReqString titleChecks raw.title) = []
  ∧ fieldIssues "author" (parseReqString authorChecks raw.author) = []
  ∧ fieldIssues "isbn" (parseReqString isbnChecks raw.isbn) = []
  ∧ fieldIssues "description"
      (parseOptNullString descriptionChecks raw.description) = []
  ∧ fieldIssues "publicationYear"
      (parseOptNullNum (yearChecks cy) raw.publicationYear) = []
  ∧ fieldIssues "genre" (parseOptNullString genreChecks raw.genre) = []
  ∧ fieldIssues "coverImageUrl"
      (parseOptNullString coverChecks raw.coverImageUrl) = [] := by
  simp only [collectIssues, List.append_eq_nil] at h
  tauto

theorem bookParse_ok_inv {cy : Int} {g : String} {raw : RawBook} {b : IBook}
    (h : bookParse cy g raw = .ok b) :
    collectIssues cy g raw = []
  ∧ withDefault (parseReqNum idChecks) 0 raw.id = .ok b.id
  ∧ withDefault (parseReqString guidChecks) g raw.guid = .ok b.guid
  ∧ parseOptString [] raw.createdOn = .ok b.createdOn
  ∧ parseOptString [] raw.updatedOn = .ok b.updatedOn
  ∧ withDefault parseReqBool true raw.isActive = .ok b.isActive
  ∧ parseReqString titleChecks raw.title = .ok b.title
  ∧ parseReqString authorChecks raw.author = .ok b.author
  ∧ parseReqString isbnChecks raw.isbn = .ok b.isbn
  ∧ parseOptNullString descriptionChecks raw.description = .ok b.description
  ∧ parseOptNullNum (yearChecks cy) raw.publicationYear
      = .ok b.publicationYear
  ∧ parseOptNullString genreChecks raw.genre = .ok b.genre
  ∧ parseOptNullString coverChecks raw.coverImageUrl
      = .ok b.coverImageUrl := by
  unfold bookParse at h
  by_cases hc : collectIssues cy g raw = []
  case neg => rw [if_neg hc] at h; exact absurd h (by simp)
  rw [if_pos hc] at h
  simp only [Except.ok.injEq] at h
  obtain ⟨c1, c2, c3, c4, c5, c6, c7, c8, c9, c10, c11, c12⟩ :=
    collect_nil_components hc
  obtain ⟨v1, hv1⟩ := ok_of_fi_wd_reqNum c1
  obtain ⟨v2, hv2⟩ := ok_of_fi_wd_reqString c2
  obtain ⟨v3, hv3⟩ := ok_of_fi_optString c3
  obtain ⟨v4, hv4⟩ := ok_of_fi_optString c4
  obtain ⟨v5, hv5⟩ := ok_of_fi_wd_reqBool c5
  obtain ⟨v6, hv6⟩ := ok_of_fi_reqString c6
  obtain ⟨v7, hv7⟩ := ok_of_fi_reqString c7
  obtain ⟨v8, hv8⟩ := ok_of_fi_reqString c8
  obtain ⟨v9, hv9⟩ := ok_of_fi_optNullString c9
  obtain ⟨v10, hv10⟩ := ok_of_fi_optNullNum c10
  obtain ⟨v11, hv11⟩ := ok_of_fi_optNullString c11
  obtain ⟨v12, hv12⟩ := ok_of_fi_optNullString c12
  subst h
  refine ⟨hc, ?_, ?_, ?_, ?_, ?_, ?_, ?_, ?_, ?_, ?_, ?_, ?_⟩
  · rw [hv1]; simp [hv1, exOk]
  · rw [hv2]; simp [hv2, exOk]
  · rw [hv3]; simp [hv3, exOk]
  · rw [hv4]; simp [hv4, exOk]
  · rw [hv5]; simp [hv5, exOk]
  · rw [hv6]; simp [hv6, exOk]
  · rw [hv7]; simp [hv7, exOk]
  · rw [hv8]; simp [hv8, exOk]
  · rw [hv9]; simp [hv9, exOk]
  · rw [hv10]; simp [hv10, exOk]
  · rw [hv11]; simp [hv11, exOk]
  · rw [hv12]; simp [hv12, exOk]

theorem bookParse_ok_mk {cy : Int} {g : String} {raw : RawBook}
    {v1 : Int} {v2 : String} {v3 v4 : Option String} {v5 : Bool}
    {v6 v7 v8 : String} {v9 : Field String} {v10 : Field Int}
    {v11 v12 : Field String}
    (h1 : withDefault (parseReqNum idChecks) 0 raw.id = .ok v1)
    (h2 : withDefault (parseReqString guidChecks) g raw.guid = .ok v2)
    (h3 : parseOptString [] raw.createdOn = .ok v3)
    (h4 : parseOptString [] raw.updatedOn = .ok v4)
    (h5 : withDefault parseReqBool true raw.isActive = .ok v5)
    (h6 : parseReqString titleChecks raw.title = .ok v6)
    (h7 : parseReqString authorChecks raw.author = .ok v7)
    (h8 : parseReqString isbnChecks raw.isbn = .ok v8)
    (h9 : parseOptNullString descriptionChecks raw.description = .ok v9)
    (h10 : parseOptNullNum (yearChecks cy) raw.publicationYear = .ok v10)
    (h11 : parseOptNullString genreChecks raw.genre = .ok v11)
    (h12 : parseOptNullString coverChecks raw.coverImageUrl = .ok v12) :
    bookParse cy g raw
      = .ok ⟨v1, v2, v3, v4, v5, v6, v7, v8, v9, v10, v11, v12⟩ := by
  have hc : collectIssues cy g raw = [] := by
    simp [collectIssues, fieldIssues_ok h1, fieldIssues_ok h2,
      fieldIssues_ok h3, fieldIssues_ok h4, fieldIssues_ok h5,
      fieldIssues_ok h6, fieldIssues_ok h7, fieldIssues_ok h8,
      fieldIssues_ok h9, fieldIssues_ok h10, fieldIssues_ok h11,
      fieldIssues_ok h12]
  unfold bookParse
  rw [if_pos hc]
  simp [h1, h2, h3, h4, h5, h6, h7, h8, h9, h10, h11, h12, exOk]

theorem bookParse_idem {cy : Int} {g g2 : String} {raw : RawBook} {b : IBook}
    (h : bookParse cy g raw = .ok b) :
    bookParse cy g2 (toRaw b) = .ok b := by
  obtain ⟨hc, h1, h2, h3, h4, h5, h6, h7, h8, h9, h10, h11, h12⟩ :=
    bookParse_ok_inv h
  have k1 : withDefault (parseReqNum idChecks) 0 (toRaw b).id = .ok b.id := by
    have hi := withDefault_reqNum_ok_inv h1
    simpa [toRaw, withDefault] using parseReqNum_ok_of idChecks b.id hi.1
  have k2 : withDefault (parseReqString guidChecks) g2 (toRaw b).guid
      = .ok b.guid := by
    have hi := withDefault_reqString_ok_inv h2
    simpa [toRaw, withDefault]
      using parseReqString_ok_of guidChecks b.guid hi.1
  have k3 : parseOptString [] (toRaw b).createdOn = .ok b.createdOn := by
    have hi := parseOptString_nil_ok_inv h3
    simpa [toRaw] using hi.2.2
  have k4 : parseOptString [] (toRaw b).updatedOn = .ok b.updatedOn := by
    have hi := parseOptString_nil_ok_inv h4
    simpa [toRaw] using hi.2.2
  have k5 : withDefault parseReqBool true (toRaw b).isActive
      = .ok b.isActive := by
    simp [toRaw, withDefault, parseReqBool]
  have k6 : parseReqString titleChecks (toRaw b).title = .ok b.title := by
    have hi := parseReqString_ok_inv h6
    simpa [toRaw] using parseReqString_ok_of titleChecks b.title hi.2
  have k7 : parseReqString authorChecks (toRaw b).author = .ok b.author := by
    have hi := parseReqString_ok_inv h7
    simpa [toRaw] using parseReqString_ok_of authorChecks b.author hi.2
  have k8 : parseReqString isbnChecks (toRaw b).isbn = .ok b.isbn := by
    have hi := parseReqString_ok_inv h8
    simpa [toRaw] using parseReqString_ok_of isbnChecks b.isbn hi.2
  have k9 : parseOptNullString descriptionChecks (toRaw b).description
      = .ok b.description := by
    have hi := parseOptNullString_ok_inv h9
    have := hi.2
    rw [hi.1] at this
    simpa [toRaw, ← hi.1] using hi.2
  have k10 : parseOptNullNum (yearChecks cy) (toRaw b).publicationYear
      = .ok b.publicationYear := by
    have hi := parseOptNullNum_ok_inv h10
    simpa [toRaw, ← hi.1] using hi.2
  have k11 : parseOptNullString genreChecks (toRaw b).genre
      = .ok b.genre := by
    have hi := parseOptNullString_ok_inv h11
    simpa [toRaw, ← hi.1] using hi.2
  have k12 : parseOptNullString coverChecks (toRaw b).coverImageUrl
      = .ok b.coverImageUrl := by
    have hi := parseOptNullString_ok_inv h12
    simpa [toRaw, ← hi.1] using hi.2
  exact bookParse_ok_mk k1 k2 k3 k4 k5 k6 k7 k8 k9 k10 k11 k12

theorem runChecks_title_nil {t : String} (h1 : 1 ≤ t.length)
    (h2 : t.length ≤ 200) : runChecks titleChecks t = [] := by
  have e1 : minLen 1 "Title is required." t = none := by
    simp [minLen]; omega
  have e2 : maxLen 200 "Title cannot be longer than 200 characters." t
      = none := by
    simp [maxLen]; omega
  simp [runChecks, titleChecks, e1, e2]

theorem runChecks_author_nil {a : String} (h1 : 1 ≤ a.length)
    (h2 : a.length ≤ 100) : runChecks authorChecks a = [] := by
  have e1 : minLen 1 "Author is required." a = none := by
    simp [minLen]; omega
  have e2 : maxLen 100 "Author name cannot be longer than 100 characters." a
      = none := by
    simp [maxLen]; omega
  simp [runChecks, authorChecks, e1, e2]

theorem runChecks_isbn_nil {s : String} (h1 : 10 ≤ s.length)
    (h2 : s.length ≤ 13) (h3 : isbnRegexOk s = true) :
    runChecks isbnChecks s = [] := by
  have e1 : minLen 1 "ISBN is required." s = none := by
    simp [minLen]; omega
  have e2 : minLen 10 "ISBN must be between 10 and 13 characters." s
      = none := by
    simp [minLen]; omega
  have e3 : maxLen 13 "ISBN must be between 10 and 13 characters." s
      = none := by
    simp [maxLen]; omega
  simp [runChecks, isbnChecks, e1, e2, e3, h3]

theorem runChecks_id_nil {n : Int} (h : 0 ≤ n) :
    runChecks idChecks n = [] := by
  simp [runChecks, idChecks]
  omega

theorem runChecks_guid_nil {u : String} (h : isUuid u = true) :
    runChecks guidChecks u = [] := by
  simp [runChecks, guidChecks, h]

theorem runChecks_description_nil {s : String} (h : s.length ≤ 2000) :
    runChecks descriptionChecks s = [] := by
  have e1 : maxLen 2000 "Description cannot be longer than 2000 characters."
      s = none := by
    simp [maxLen]; omega
  simp [runChecks, descriptionChecks, e1]

theorem runChecks_year_nil {cy n : Int} (h1 : 1000 ≤ n)
    (h2 : n ≤ cy + 6) : runChecks (yearChecks cy) n = [] := by
  simp [runChecks, yearChecks]
  omega

theorem runChecks_genre_nil {s : String} (h : s.length ≤ 50) :
    runChecks genreChecks s = [] := by
  have e1 : maxLen 50 "Genre cannot be longer than 50 characters." s
      = none := by
    simp [maxLen]; omega
  simp [runChecks, genreChecks, e1]

theorem runChecks_cover_nil {s : String} (h1 : isUrl s = true)
    (h2 : s.length ≤ 500) : runChecks coverChecks s = [] := by
  have e1 : maxLen 500 "Cover image URL cannot be longer than 500 characters."
      s = none := by
    simp [maxLen]; omega
  simp [runChecks, coverChecks, e1, h1]

theorem spec_id_component {raw : RawBook}
    (h : raw.id = .absent ∨ ∃ n, raw.id = .val n ∧ 0 ≤ n) :
    ∃ v, withDefault (parseReqNum idChecks) 0 raw.id = .ok v
      ∧ (raw.id = .absent → v = 0) ∧ ∀ n, raw.id = .val n → v = n := by
  rcases h with h | ⟨n, hn, hge⟩
  · refine ⟨0, ?_, fun _ => rfl, fun n hn => by rw [h] at hn; simp at hn⟩
    rw [h]
    simpa [withDefault] using parseReqNum_ok_of idChecks 0 (runChecks_id_nil le_rfl)
  · refine ⟨n, ?_, fun ha => by rw [hn] at ha; simp at ha, fun m hm => ?_⟩
    · rw [hn]
      simpa [withDefault] using parseReqNum_ok_of idChecks n (runChecks_id_nil hge)
    · rw [hn] at hm
      simpa using hm

theorem spec_guid_component {g : String} {raw : RawBook}
    (hg : isUuid g = true)
    (h : raw.guid = .absent ∨ ∃ u, raw.guid = .val u ∧ isUuid u = true) :
    ∃ v, withDefault (parseReqString guidChecks) g raw.guid = .ok v
      ∧ (raw.guid = .absent → v = g) ∧ ∀ u, raw.guid = .val u → v = u := by
  rcases h with h | ⟨u, hu, huu⟩
  · refine ⟨g, ?_, fun _ => rfl, fun u hu => by rw [h] at hu; simp at hu⟩
    rw [h]
    simpa [withDefault]
      using parseReqString_ok_of guidChecks g (runChecks_guid_nil hg)
  · refine ⟨u, ?_, fun ha => by rw [hu] at ha; simp at ha, fun w hw => ?_⟩
    · rw [hu]
      simpa [withDefault]
        using parseReqString_ok_of guidChecks u (runChecks_guid_nil huu)
    · rw [hu] at hw
      simpa using hw

theorem spec_opt_component {f : Field String}
    (h : f = .absent ∨ ∃ s, f = .val s) :
    ∃ v, parseOptString [] f = .ok v
      ∧ (f = .absent → v = none) ∧ ∀ s, f = .val s → v = some s := by
  rcases h with h | ⟨s, hs⟩
  · subst h
    exact ⟨none, rfl, fun _ => rfl, fun s hs => by simp at hs⟩
  · subst hs
    refine ⟨some s, by simp [parseOptString, runChecks],
      fun ha => by simp at ha, fun t ht => ?_⟩
    simp only [Field.val.injEq] at ht
    rw [ht]

theorem spec_isActive_component {f : Field Bool}
    (h : f = .absent ∨ ∃ x, f = .val x) :
    ∃ v, withDefault parseReqBool true f = .ok v
      ∧ (f = .absent → v = true) ∧ ∀ x, f = .val x → v = x := by
  rcases h with h | ⟨x, hx⟩
  · subst h
    exact ⟨true, rfl, fun _ => rfl, fun x hx => by simp at hx⟩
  · subst hx
    refine ⟨x, rfl, fun ha => by simp at ha, fun y hy => ?_⟩
    simp only [Field.val.injEq] at hy
    rw [hy]

theorem spec_optNullString_component {cs : List (String → Option String)}
    {f : Field String}
    (hchk : ∀ s, f = .val s → runChecks cs s = []) :
    parseOptNullString cs f = .ok f := by
  cases f with
  | absent => rfl
  | null => rfl
  | val s => simp [parseOptNullString, hchk s rfl]

theorem spec_optNullNum_component {cs : List (Int → Option String)}
    {f : Field Int}
    (hchk : ∀ n, f = .val n → runChecks cs n = []) :
    parseOptNullNum cs f = .ok f := by
  cases f with
  | absent => rfl
  | null => rfl
  | val n => simp [parseOptNullNum, hchk n rfl]

theorem mem_fieldIssues_reqString {name : String}
    {cs : List (String → Option String)} {s msg : String}
    (h : msg ∈ runChecks cs s) :
    (⟨name, msg⟩ : Issue)
      ∈ fieldIssues name (parseReqString cs (.val s)) := by
  cases hr : runChecks cs s with
  | nil => rw [hr] at h; simp at h
  | cons a t =>
      rw [hr] at h
      simp only [parseReqString, hr, fieldIssues, List.mem_map]
      exact ⟨msg, h, rfl⟩

theorem mem_collect_isbn {cy : Int} {g : String} {raw : RawBook} {x : Issue}
    (h : x ∈ fieldIssues "isbn" (parseReqString isbnChecks raw.isbn)) :
    x ∈ collectIssues cy g raw := by
  simp only [collectIssues, List.mem_append]
  tauto

theorem parseOptNullNum_val_ok_checks {cs : List (Int → Option String)}
    {n : Int} {v : Field Int}
    (h : parseOptNullNum cs (.val n) = .ok v) : runChecks cs n = [] := by
  cases hr : runChecks cs n with
  | nil => rfl
  | cons a t => simp [parseOptNullNum, hr] at h

/-- C10 helper: the empty object fails bookFormSchema because title is
required. -/
theorem collect_emptyRaw_ne_nil (cy : Int) (g : String) :
    collectIssues cy g emptyRaw ≠ [] := by
  intro h
  have h6 := (collect_nil_components h).2.2.2.2.2.1
  simp [emptyRaw, parseReqString, fieldIssues] at h6

/-- C10: BookFormValues called with no argument always returns the empty
object cast to IBookFormValues: parsing the empty object necessarily fails
(title, author and isbn are required without defaults), so the catch branch
is always taken and the new-book form defaults never contain the defaulted
id, guid or isActive fields. -/
theorem C10_emptySeed_emptyObj (cy : Int) (g : String) :
    BookFormValues cy g none = FormValuesResult.emptyObj := by
  have hne := collect_emptyRaw_ne_nil cy g
  have hp : bookFormParse cy g emptyRaw
      = .error (collectIssues cy g emptyRaw) := by
    unfold bookFormParse bookParse
    rw [if_neg hne]
  simp [BookFormValues, hp]

/-- C4: for every input whose ISBN value does not contain exactly 10 or
exactly 13 digits, validation fails and the failure carries an ISBN-specific
message (the pattern issue fires in every such case). -/
theorem C4_isbn_digit_count (cy : Int) (g : String) (raw : RawBook)
    (s : String) (hs : raw.isbn = .val s)
    (h10 : countDigits s ≠ 10) (h13 : countDigits s ≠ 13) :
    validateBookForm cy g raw = false
  ∧ ∃ i, bookFormParse cy g raw = .error i
      ∧ (⟨"isbn", "Invalid ISBN format."⟩ : Issue) ∈ i := by
  have hreg : isbnRegexOk s = false := by
    simp [isbnRegexOk, h10, h13]
  have hrun : "Invalid ISBN format." ∈ runChecks isbnChecks s := by
    simp [runChecks, isbnChecks, hreg, minLen, maxLen]
  have hmem : (⟨"isbn", "Invalid ISBN format."⟩ : Issue)
      ∈ collectIssues cy g raw := by
    apply mem_collect_isbn
    rw [hs]
    exact mem_fieldIssues_reqString hrun
  obtain ⟨i, hi, hxi⟩ := bookParse_error_of_mem hmem
  exact ⟨validateBookForm_false_of_error hi, i, hi, hxi⟩

/-- C4 witness at a concrete five-digit ISBN. -/
theorem C4_witness :
    rawIsbn5.isbn = Field.val "12345"
  ∧ (validateBookForm 2026 uuidSample rawIsbn5 = false
      ∧ ∃ i, bookFormParse 2026 uuidSample rawIsbn5 = .error i
          ∧ (⟨"isbn", "Invalid ISBN format."⟩ : Issue) ∈ i) :=
  ⟨rfl, C4_isbn_digit_count 2026 uuidSample rawIsbn5 "12345" rfl
    (by decide) (by decide)⟩

/-- C5: for every input with a publication year below 1000 or above the
current year plus 6 validation fails; and the bound is relative to the
current calendar year, not fixed: one input passes under one current year
and fails under another. -/
theorem C5_publication_year :
    (∀ (cy : Int) (g : String) (raw : RawBook) (n : Int),
      raw.publicationYear = .val n → (n < 1000 ∨ cy + 6 < n) →
      validateBookForm cy g raw = false)
  ∧ (∃ (raw : RawBook) (cy1 cy2 : Int) (g : String),
      validateBookForm cy1 g raw = true
        ∧ validateBookForm cy2 g raw = false) := by
  constructor
  · intro cy g raw n hn hbad
    cases he : bookFormParse cy g raw with
    | error i => exact validateBookForm_false_of_error he
    | ok b =>
        exfalso
        have h10 := (bookParse_ok_inv he).2.2.2.2.2.2.2.2.2.2.1
        rw [hn] at h10
        have hnil := parseOptNullNum_val_ok_checks h10
        have hm : "Please enter a valid publication year."
            ∈ runChecks (yearChecks cy) n := by
          rcases hbad with hlt | hgt
          · simp [runChecks, yearChecks, hlt]
          · simp [runChecks, yearChecks, hgt]
        rw [hnil] at hm
        simp at hm
  · exact ⟨rawYear2032, 2026, 2020, uuidSample, by decide, by decide⟩

/-- C5 witness at publication year 999 and current year 2026. -/
theorem C5_witness :
    rawYear999.publicationYear = Field.val 999
  ∧ validateBookForm 2026 uuidSample rawYear999 = false :=
  ⟨rfl, C5_publication_year.1 2026 uuidSample rawYear999 999 rfl
    (Or.inl (by decide))⟩

/-- C9 helper: a string with thirteen digits and a hyphen is longer than
thirteen characters. -/
theorem length_gt_of_digits13_hyphen {s : String}
    (hd : countDigits s = 13) (hh : '-' ∈ s.data) : 13 < s.length := by
  have hlen : s.length = s.data.length := rfl
  have hsplit := List.length_eq_countP_add_countP (p := Char.isDigit)
    (l := s.data)
  have hpos : 0 < s.data.countP (fun c => !c.isDigit) := by
    rw [List.countP_pos_iff]
    exact ⟨'-', hh, by decide⟩
  have hcd : s.data.countP Char.isDigit = 13 := hd
  have : s.data.countP (fun a => ¬Char.isDigit a)
      = s.data.countP (fun c => !c.isDigit) := by
    apply List.countP_congr
    intro a _
    simp
  omega

/-- C9: a hyphenated ISBN with exactly thirteen digits is always rejected —
its total length exceeds the 13-character maximum checked before the
digit-count pattern — with the length-specific ISBN message. -/
theorem C9_hyphenated_isbn13 (cy : Int) (g : String) (raw : RawBook)
    (s : String) (hs : raw.isbn = .val s)
    (hd : countDigits s = 13) (hh : '-' ∈ s.data) :
    validateBookForm cy g raw = false
  ∧ ∃ i, bookFormParse cy g raw = .error i
      ∧ (⟨"isbn", "ISBN must be between 10 and 13 characters."⟩ : Issue)
          ∈ i := by
  have hlen := length_gt_of_digits13_hyphen hd hh
  have e3 : maxLen 13 "ISBN must be between 10 and 13 characters." s
      = some "ISBN must be between 10 and 13 characters." := by
    simp [maxLen]
    omega
  have hrun : "ISBN must be between 10 and 13 characters."
      ∈ runChecks isbnChecks s := by
    simp only [runChecks, isbnChecks, List.filterMap_cons]
    rw [e3]
    cases h1 : minLen 1 "ISBN is required." s
      <;> cases h2 : minLen 10 "ISBN must be between 10 and 13 characters." s
      <;> simp
  have hmem : (⟨"isbn", "ISBN must be between 10 and 13 characters."⟩ : Issue)
      ∈ collectIssues cy g raw := by
    apply mem_collect_isbn
    rw [hs]
    exact mem_fieldIssues_reqString hrun
  obtain ⟨i, hi, hxi⟩ := bookParse_error_of_mem hmem
  exact ⟨validateBookForm_false_of_error hi, i, hi, hxi⟩

/-- C9 witness at the hyphenated ISBN-13 of a real book. -/
theorem C9_witness :
    rawIsbn13Hyphen.isbn = Field.val "978-0-306-40615-7"
  ∧ countDigits "978-0-306-40615-7" = 13
  ∧ (validateBookForm 2026 uuidSample rawIsbn13Hyphen = false
      ∧ ∃ i, bookFormParse 2026 uuidSample rawIsbn13Hyphen = .error i
          ∧ (⟨"isbn", "ISBN must be between 10 and 13 characters."⟩ : Issue)
              ∈ i) :=
  ⟨rfl, by decide,
   C9_hyphenated_isbn13 2026 uuidSample rawIsbn13Hyphen "978-0-306-40615-7"
     rfl (by decide) (by decide)⟩

/-- C8: the Book factory validates the form values against the Book rules —
on any violation it fails carrying the nonempty field-level issue list, and
on success it returns a fully-typed book in which an absent id defaults to
0, an absent guid to the generated UUID and an absent isActive to true. -/
theorem C8_book_factory (cy : Int) (g : String) (raw : RawBook) :
    (∀ i, Book cy g raw = .error i →
      i ≠ [] ∧ i = collectIssues cy g raw)
  ∧ (∀ b, Book cy g raw = .ok b →
      (raw.id = .absent → b.id = 0)
      ∧ (raw.guid = .absent → b.guid = g)
      ∧ (raw.isActive = .absent → b.isActive = true)) := by
  constructor
  · intro i hi
    have h := bookParse_error_inv hi
    exact ⟨h.2, h.1⟩
  · intro b hb
    obtain ⟨_, h1, h2, _, _, h5, _⟩ := bookParse_ok_inv hb
    exact ⟨(withDefault_reqNum_ok_inv h1).2.1,
      (withDefault_reqString_ok_inv h2).2.1,
      (withDefault_reqBool_ok_inv h5).1⟩

/-- C8 witness: default id, guid and isActive on the minimal valid input,
and a nonempty issue list on the empty input. -/
theorem C8_witness :
    ((bookSample.id = 0) ∧ (bookSample.guid = uuidSample)
      ∧ (bookSample.isActive = true))
  ∧ collectIssues 2026 uuidSample emptyRaw ≠ [] := by
  constructor
  · have h := (C8_book_factory 2026 uuidSample rawSample).2 bookSample
      (by rfl)
    exact ⟨h.1 rfl, h.2.1 rfl, h.2.2 rfl⟩
  · have h := (C8_book_factory 2026 uuidSample emptyRaw).1
      (collectIssues 2026 uuidSample emptyRaw)
      (by
        unfold Book bookParse
        rw [if_neg (collect_emptyRaw_ne_nil 2026 uuidSample)])
    exact h.1

/-- C2: against a server answering 404 with the title-shaped JSON body whose
errors property is the empty object, fetchBookById fails with an ApiError
whose statusCode is 404 and whose message is Not Found — the normalization
recognizes the title-and-errors shape and maps title to the canonical
message. -/
theorem C2_fetch404_titleShape :
    (fetchBookById notFoundServer "99").outcome
      = .error (.apiErr "Not Found" 404 (some [])) := by
  rfl

/-- C3 counterexample: fetchBookById itself contains no guard clause — with
the empty identifier it still issues the network request, and against a 404
its failure message is the normalized transport error, not the
Book-ID-is-missing message. -/
theorem C3_counterexample :
    (fetchBookById rawTextServer "").requests = [bookPath ""]
  ∧ (fetchBookById rawTextServer "").outcome
      = .error (.apiErr "HTTP error 404: no such route" 404 none) := by
  exact ⟨rfl, rfl⟩

/-- C3 amended: the guard lives in the detail page query function, not in
fetchBookById — for an absent (undefined or empty) identifier the query
function rejects with the Book-ID-is-missing message and issues no network
request. -/
theorem C3_guard_in_queryFn (server : Server) (id : Option String)
    (h : id = none ∨ id = some "") :
    bookInfoQueryFn server id
      = ⟨[], .error (.plainErr "Book ID is missing")⟩ := by
  rcases h with h | h
  · subst h; rfl
  · subst h; rfl

/-- C3 witness: the guard at the undefined identifier. -/
theorem C3_witness :
    bookInfoQueryFn rawTextServer none
      = ⟨[], Except.error (.plainErr "Book ID is missing")⟩ :=
  C3_guard_in_queryFn rawTextServer none (Or.inl rfl)

theorem dtoKeys_no_serverOwned (r : DtoResult) :
    (dtoKeys r).filter (fun k => serverOwnedKeys.contains k) = [] := by
  cases r with
  | emptyObj => rfl
  | dto d =>
      simp only [dtoKeys, List.filter_append]
      have hbase : (["guid", "title", "author", "isbn"]).filter
          (fun k => serverOwnedKeys.contains k) = [] := by decide
      have hf : ∀ (name : String) (f : Field String),
          name ∉ serverOwnedKeys →
          (fieldKey name f).filter (fun k => serverOwnedKeys.contains k)
            = [] := by
        intro name f hn
        cases f <;> simp [fieldKey, hn]
      have hfn : ∀ (name : String) (f : Field Int),
          name ∉ serverOwnedKeys →
          (fieldKey name f).filter (fun k => serverOwnedKeys.contains k)
            = [] := by
        intro name f hn
        cases f <;> simp [fieldKey, hn]
      rw [hbase, hf "description" d.description (by decide),
        hfn "publicationYear" d.publicationYear (by decide),
        hf "genre" d.genre (by decide),
        hf "coverImageUrl" d.coverImageUrl (by decide)]
      rfl

/-- C6: for every input — valid, invalid or absent — the object returned by
the BookDto factory carries none of the server-owned keys id, createdOn,
updatedOn, isActive. -/
theorem C6_dto_never_serverOwned (cy : Int) (g : String)
    (inp : Option RawBook) :
    (dtoKeys (BookDto cy g inp)).filter
      (fun k => serverOwnedKeys.contains k) = [] :=
  dtoKeys_no_serverOwned (BookDto cy g inp)

/-- C7: deleteBook resolves with exactly the identifier it was given
precisely when the response status is 204, and every non-2xx status makes it
fail with an ApiError carrying that status code. -/
theorem C7_deleteBook (server : Server) (id : String) :
    ((deleteBook server id).outcome = .ok ⟨id⟩
        ↔ (server (bookPath id)).status = 204)
  ∧ (respOk (server (bookPath id)).status = false →
      ∃ msg errs, (deleteBook server id).outcome
        = .error (.apiErr msg (server (bookPath id)).status errs)) := by
  constructor
  · constructor
    · intro h
      by_contra hne
      simp only [deleteBook] at h
      rw [if_neg (by simpa using hne)] at h
      by_cases hok : respOk (server (bookPath id)).status
      · rw [if_pos hok] at h
        exact absurd h (by simp)
      · rw [if_neg hok] at h
        cases hb : (server (bookPath id)).body with
        | json j => rw [hb] at h; exact absurd h (by simp)
        | text t => rw [hb] at h; exact absurd h (by simp)
    · intro h
      simp [deleteBook, h]
  · intro h
    by_cases hs : (server (bookPath id)).status = 204
    · rw [hs] at h
      simp [respOk] at h
    · cases hb : (server (bookPath id)).body with
      | json j =>
          refine ⟨j.message.getD "", j.errors, ?_⟩
          simp only [deleteBook]
          rw [if_neg (by simpa using hs), if_neg (by simp [h]), hb]
      | text t =>
          refine ⟨"HTTP error! status: "
            ++ toString (server (bookPath id)).status, none, ?_⟩
          simp only [deleteBook]
          rw [if_neg (by simpa using hs), if_neg (by simp [h]), hb]

/-- C7 witness: the 204 success at identifier 42 and a 500 failure carrying
the status code. -/
theorem C7_witness :
    (deleteBook delServer204 "42").outcome = .ok ⟨"42"⟩
  ∧ (respOk (delServer500 (bookPath "42")).status = false
      ∧ ∃ msg errs, (deleteBook delServer500 "42").outcome
          = .error (.apiErr msg (delServer500 (bookPath "42")).status
              errs)) :=
  ⟨(C7_deleteBook delServer204 "42").1.mpr rfl,
   by decide, (C7_deleteBook delServer500 "42").2 (by decide)⟩

/-- C1: for every form-values object satisfying the Book field constraints
of the data model (and a well-formed generated UUID), the Book factory
succeeds, BookFormValues applied to the produced book reproduces it exactly,
and the produced book carries the input field values, with id, guid and
isActive defaulted when absent. -/
theorem C1_book_roundtrip (cy : Int) (g g2 : String) (raw : RawBook)
    (hg : isUuid g = true) (hv : SpecValidBookInput cy raw) :
    ∃ b, Book cy g raw = .ok b
      ∧ BookFormValues cy g2 (some b) = .parsed b
      ∧ (∀ t, raw.title = .val t → b.title = t)
      ∧ (∀ a, raw.author = .val a → b.author = a)
      ∧ (∀ s, raw.isbn = .val s → b.isbn = s)
      ∧ (raw.id = .absent → b.id = 0)
      ∧ (∀ n, raw.id = .val n → b.id = n)
      ∧ (raw.guid = .absent → b.guid = g)
      ∧ (∀ u, raw.guid = .val u → b.guid = u)
      ∧ (raw.createdOn = .absent → b.createdOn = none)
      ∧ (∀ s, raw.createdOn = .val s → b.createdOn = some s)
      ∧ (raw.updatedOn = .absent → b.updatedOn = none)
      ∧ (∀ s, raw.updatedOn = .val s → b.updatedOn = some s)
      ∧ (raw.isActive = .absent → b.isActive = true)
      ∧ (∀ x, raw.isActive = .val x → b.isActive = x)
      ∧ b.description = raw.description
      ∧ b.publicationYear = raw.publicationYear
      ∧ b.genre = raw.genre
      ∧ b.coverImageUrl = raw.coverImageUrl := by
  obtain ⟨t, ht, ht1, ht2⟩ := hv.title_ok
  obtain ⟨a, ha, ha1, ha2⟩ := hv.author_ok
  obtain ⟨s, hs, hs1, hs2, hs3, hs4⟩ := hv.isbn_ok
  obtain ⟨v1, k1, k1a, k1v⟩ := spec_id_component hv.id_ok
  obtain ⟨v2, k2, k2a, k2v⟩ := spec_guid_component hg hv.guid_ok
  obtain ⟨v3, k3, k3a, k3v⟩ := spec_opt_component hv.createdOn_ok
  obtain ⟨v4, k4, k4a, k4v⟩ := spec_opt_component hv.updatedOn_ok
  obtain ⟨v5, k5, k5a, k5v⟩ := spec_isActive_component hv.isActive_ok
  have k6 : parseReqString titleChecks raw.title = .ok t := by
    rw [ht]
    exact parseReqString_ok_of _ _ (runChecks_title_nil ht1 ht2)
  have k7 : parseReqString authorChecks raw.author = .ok a := by
    rw [ha]
    exact parseReqString_ok_of _ _ (runChecks_author_nil ha1 ha2)
  have k8 : parseReqString isbnChecks raw.isbn = .ok s := by
    rw [hs]
    exact parseReqString_ok_of _ _ (runChecks_isbn_nil hs1 hs2 hs4)
  have k9 : parseOptNullString descriptionChecks raw.description
      = .ok raw.description :=
    spec_optNullString_component
      (fun x hx => runChecks_description_nil (hv.description_ok x hx))
  have k10 : parseOptNullNum (yearChecks cy) raw.publicationYear
      = .ok raw.publicationYear :=
    spec_optNullNum_component
      (fun n hn => runChecks_year_nil (hv.year_ok n hn).1 (hv.year_ok n hn).2)
  have k11 : parseOptNullString genreChecks raw.genre = .ok raw.genre :=
    spec_optNullString_component
      (fun x hx => runChecks_genre_nil (hv.genre_ok x hx))
  have k12 : parseOptNullString coverChecks raw.coverImageUrl
      = .ok raw.coverImageUrl :=
    spec_optNullString_component
      (fun x hx => runChecks_cover_nil (hv.cover_ok x hx).1
        (hv.cover_ok x hx).2)
  have hb := bookParse_ok_mk k1 k2 k3 k4 k5 k6 k7 k8 k9 k10 k11 k12
  have hform : BookFormValues cy g2
      (some ⟨v1, v2, v3, v4, v5, t, a, s, raw.description,
        raw.publicationYear, raw.genre, raw.coverImageUrl⟩)
      = .parsed ⟨v1, v2, v3, v4, v5, t, a, s, raw.description,
        raw.publicationYear, raw.genre, raw.coverImageUrl⟩ := by
    have hidem := @bookParse_idem cy g g2 _ _ hb
    simp [BookFormValues, bookFormParse, hidem]
  refine ⟨⟨v1, v2, v3, v4, v5, t, a, s, raw.description,
    raw.publicationYear, raw.genre, raw.coverImageUrl⟩, hb, hform,
    ?_, ?_, ?_, k1a, k1v, k2a, k2v, k3a, k3v, k4a, k4v, k5a, k5v,
    rfl, rfl, rfl, rfl⟩
  · intro t0 ht0
    rw [ht] at ht0
    simpa using ht0
  · intro a0 ha0
    rw [ha] at ha0
    simpa using ha0
  · intro s0 hs0
    rw [hs] at hs0
    simpa using hs0

/-- C1 witness at a fully populated concrete input. -/
theorem C1_witness :
    isUuid uuidSample = true
  ∧ ∃ b, Book 2026 uuidSample rawFull = .ok b
      ∧ BookFormValues 2026 uuidSample (some b) = .parsed b
      ∧ b.id = 7 ∧ b.title = "Dune" ∧ b.isbn = "9780441013593" := by
  refine ⟨by decide, ?_⟩
  obtain ⟨b, h1, h2, h3, _, h5, _, h7, _⟩ :=
    C1_book_roundtrip 2026 uuidSample uuidSample rawFull (by decide)
      ⟨⟨"Dune", rfl, by decide, by decide⟩,
       ⟨"Frank Herbert", rfl, by decide, by decide⟩,
       ⟨"9780441013593", rfl, by decide, by decide, by decide, by decide⟩,
       Or.inr ⟨7, rfl, by decide⟩,
       Or.inr ⟨"00112233-4455-6677-8899-aabbccddeeff", rfl, by decide⟩,
       Or.inr ⟨"2020-01-01T00:00:00Z", rfl⟩,
       Or.inl rfl,
       Or.inr ⟨false, rfl⟩,
       fun x hx => by
         simp only [rawFull, Field.val.injEq] at hx
         rw [← hx]; decide,
       fun n hn => by
         simp only [rawFull, Field.val.injEq] at hn
         constructor <;> omega,
       fun x hx => by
         simp only [rawFull, Field.val.injEq] at hx
         rw [← hx]; decide,
       fun x hx => by
         simp only [rawFull, Field.val.injEq] at hx
         rw [← hx]; exact ⟨by decide, by decide⟩⟩
  exact ⟨b, h1, h2, h7 7 rfl, h3 "Dune" rfl, h5 "9780441013593" rfl⟩

end BookKeep
